import Mathlib

/-!
Verification of the driver script `random_example.py`.

The script wires together external building blocks from the `rlcard`
library: an environment factory (`rlcard.make`), a random-policy agent
class (`RandomAgent`), a global seeding utility (`set_seed`), and the
environment object's `set_agents` and `run` methods.  The external
library is treated as an opaque, deterministic collaborator: it is
modelled as a `World` structure mapping a name and a configuration to an
environment object, whose `run` method is an arbitrary deterministic
function of the global random-number-generator state, the bound agents
and the training flag.  The driver itself — argument parsing, the fixed
configuration, the two agent constructions, the single episode, and the
printing phase with its unguarded indexing — is embedded faithfully,
and the sequence of external calls it performs is recorded as a trace.
-/

/-- Opaque payload values stored inside a trajectory event (raw
observations, legal-action lists, actions).  The driver never inspects
their structure, it only prints them. -/
inductive Value where
  | str : String → Value
  | num : Nat → Value
deriving DecidableEq, Repr

/-- One recorded event of a trajectory: a Python dict from string keys
to values, modelled as an association list. -/
abbrev TrajEvent := List (String × Value)

/-- The configuration mapping passed to `rlcard.make`: the source
literal is `config={'seed': 42, 'num_players': 3}`, exactly two keys. -/
structure EnvConfig where
  seed : Nat
  num_players : Nat
deriving DecidableEq, Repr

/-- A `RandomAgent` instance; the source constructs it with the single
keyword argument `num_actions=env.num_actions`. -/
structure RandomAgent where
  num_actions : Nat
deriving DecidableEq, Repr

/-- An environment object returned by the factory: it exposes the
action count and the episode runner.  `run` takes the global RNG state
(an abstract `Nat`), the list of bound agents, and the `is_training`
flag, and returns the pair (per-player trajectories, player payoffs)
exactly as `env.run` does in the source. -/
structure EnvObj where
  num_actions : Nat
  run : Nat → List RandomAgent → Bool → List (List TrajEvent) × List Int

/-- The external library: a deterministic factory from an environment
name and a configuration to an environment object (`rlcard.make`). -/
structure World where
  make : String → EnvConfig → EnvObj

/-- The seeding utility `set_seed(seed)`: it overwrites the process-wide
random-number-generator state (numpy, torch, random), whatever that
state previously was.  The previous state is the second argument and is
discarded. -/
def set_seed (seed : Nat) (_prev : Nat) : Nat := seed

/-- One external call performed by the driver, in program order. -/
inductive Call where
  | makeEnv : String → EnvConfig → Call
  | setSeed : Nat → Call
  | newAgent : Nat → Call
  | setAgents : List RandomAgent → Call
  | envRun : Bool → Call
deriving DecidableEq, Repr

/-- Runtime errors the printing phase can raise in Python. -/
inductive PyError where
  | indexError : PyError
  | keyError : String → PyError
deriving DecidableEq, Repr

/-- One line written to standard output by the printing phase. -/
inductive OutLine where
  | text : String → OutLine
  | trajs : List (List TrajEvent) → OutLine
  | val : Value → OutLine
  | num : Nat → OutLine
deriving DecidableEq, Repr

/-- The printing phase of `run`, statement by statement:
`print` of the banner and the whole trajectory list always succeeds;
`trajectories[0][0]['raw_obs']` raises IndexError on an empty outer or
inner list and KeyError on a missing key; likewise for
`raw_legal_actions`; `len(trajectories[0])` then succeeds, and
`len(trajectories[1])` raises IndexError when fewer than two per-player
lists were returned. -/
def printPhase (trajectories : List (List TrajEvent)) : Except PyError (List OutLine) :=
  match trajectories[0]? with
  | none => Except.error PyError.indexError
  | some t0 =>
    match t0[0]? with
    | none => Except.error PyError.indexError
    | some e0 =>
      match e0.lookup "raw_obs" with
      | none => Except.error (PyError.keyError "raw_obs")
      | some obs =>
        match e0.lookup "raw_legal_actions" with
        | none => Except.error (PyError.keyError "raw_legal_actions")
        | some legal =>
          match trajectories[1]? with
          | none => Except.error PyError.indexError
          | some t1 =>
            Except.ok [OutLine.text "\nTrajectories:", OutLine.trajs trajectories,
              OutLine.text "\nSample raw observation:", OutLine.val obs,
              OutLine.text "\nSample raw legal_actions:", OutLine.val legal,
              OutLine.num t0.length, OutLine.num t1.length]

/-- The parsed command-line arguments: the script defines exactly one
flag, so the namespace has exactly one attribute. -/
structure Args where
  env : String
deriving DecidableEq, Repr

/-- Everything observable about one execution of `run`: the trace of
external calls it performed, the agents it constructed, the two outputs
of `env.run`, and the outcome of the printing phase. -/
structure RunOutcome where
  calls : List Call
  agents : List RandomAgent
  trajectories : List (List TrajEvent)
  player_wins : List Int
  printed : Except PyError (List OutLine)

/-- The configuration literal of the `rlcard.make` call in the source. -/
def driverConfig : EnvConfig := { seed := 42, num_players := 3 }

/-- The driver routine `run(args)`, with the external world and the
initial process-wide RNG state made explicit.  It builds the
environment from `args.env` and the fixed configuration, seeds the
global RNG with 42 (discarding `rng0`), constructs two random agents
from `env.num_actions`, binds them, runs one episode with
`is_training=False`, and prints. -/
def run (W : World) (rng0 : Nat) (args : Args) : RunOutcome :=
  let env := W.make args.env driverConfig
  let rng := set_seed 42 rng0
  let agent1 : RandomAgent := { num_actions := env.num_actions }
  let agent2 : RandomAgent := { num_actions := env.num_actions }
  let agents := [agent1, agent2]
  let result := env.run rng agents false
  { calls := [Call.makeEnv args.env driverConfig, Call.setSeed 42,
      Call.newAgent env.num_actions, Call.newAgent env.num_actions,
      Call.setAgents agents, Call.envRun false],
    agents := agents,
    trajectories := result.1,
    player_wins := result.2,
    printed := printPhase result.1 }

/-- The declaration of one argparse flag: its name, its `type=` keyword,
its `default=` keyword and its `choices=` list. -/
structure FlagSpec where
  flag : String
  argType : String
  default : String
  choices : List String
deriving DecidableEq, Repr

/-- The single `parser.add_argument` call of the script. -/
def envFlag : FlagSpec :=
  { flag := "--env", argType := "str", default := "leduc-holdem",
    choices := ["blackjack", "leduc-holdem", "limit-holdem", "doudizhu",
      "mahjong", "no-limit-holdem", "uno", "gin-rummy", "bridge"] }

/-- The full set of flags registered on the argument parser. -/
def parserArguments : List FlagSpec := [envFlag]

/-- The ways `parse_args` terminates the process before `run` is
reached (argparse prints a usage message and exits with status 2). -/
inductive ParseError where
  | invalidChoice : String → String → ParseError
  | expectedOneArgument : String → ParseError
  | unrecognizedArguments : String → ParseError
deriving DecidableEq, Repr

/-- Recursive scan of the argument vector, carrying the current value
of the `--env` attribute (initially the flag's default).  A `--env v`
occurrence with `v` outside the choices list terminates parsing with an
invalid-choice error, before any later code runs. -/
def parseArgsFrom : List String → String → Except ParseError Args
  | [], current => Except.ok { env := current }
  | "--env" :: v :: rest, _ =>
    if v ∈ envFlag.choices then parseArgsFrom rest v
    else Except.error (ParseError.invalidChoice "--env" v)
  | ["--env"], _ => Except.error (ParseError.expectedOneArgument "--env")
  | a :: _, _ => Except.error (ParseError.unrecognizedArguments a)

/-- `parser.parse_args()` over the given argument vector. -/
def parse_args (argv : List String) : Except ParseError Args :=
  parseArgsFrom argv envFlag.default

/-- The `__main__` block: build the parser, parse the argument vector,
and call `run(args)` only when parsing succeeded. -/
def mainScript (W : World) (rng0 : Nat) (argv : List String) : Except ParseError RunOutcome :=
  match parse_args argv with
  | Except.error e => Except.error e
  | Except.ok args => Except.ok (run W rng0 args)

/-- The external calls performed by a whole invocation: none when the
argument parser terminated the process. -/
def callsOf : Except ParseError RunOutcome → List Call
  | Except.error _ => []
  | Except.ok o => o.calls

/-- Recognizes the factory call in a trace. -/
def isMakeEnv : Call → Bool
  | Call.makeEnv _ _ => true
  | _ => false

/-- Recognizes the global seeding call in a trace. -/
def isSetSeed : Call → Bool
  | Call.setSeed _ => true
  | _ => false

/-- Recognizes the episode-running call in a trace. -/
def isEnvRun : Call → Bool
  | Call.envRun _ => true
  | _ => false

/-- The name and configuration of the first factory call in a trace. -/
def makeEnvArgs : List Call → Option (String × EnvConfig)
  | [] => none
  | Call.makeEnv n c :: _ => some (n, c)
  | _ :: rest => makeEnvArgs rest

/-- Modelled from the spec: the game-environment engine behind
`rlcard.make` is an external library, not part of this repository, so
its episode runner is characterised by the spec's words — an episode is
one complete playthrough recorded as per-player trajectories, one
non-empty sequence of events per player seat (the configuration
requests several players and the driver indexes the first two), each
event carrying a raw observation, the legal actions, and the action
taken. -/
def SpecEnvContract (env : EnvObj) : Prop :=
  ∀ rng agents training,
    2 ≤ ((env.run rng agents training).1).length ∧
    (∀ p ∈ (env.run rng agents training).1, p ≠ []) ∧
    (∀ p ∈ (env.run rng agents training).1, ∀ e ∈ p,
      (e.lookup "raw_obs").isSome = true ∧
      (e.lookup "raw_legal_actions").isSome = true ∧
      (e.lookup "action").isSome = true)

/-- A concrete well-formed trajectory event, used to instantiate the
abstract external world in closed-form checks. -/
def demoEvent : TrajEvent :=
  [("raw_obs", Value.str "obs"), ("raw_legal_actions", Value.str "legal"),
   ("action", Value.num 0)]

/-- A concrete environment object whose episode runner returns a fixed
well-formed pair of per-player trajectories. -/
def demoEnv : EnvObj :=
  { num_actions := 2,
    run := fun _ _ _ => ([[demoEvent], [demoEvent]], [1, 0]) }

/-- A concrete external world built from `demoEnv`. -/
def demoWorld : World := { make := fun _ _ => demoEnv }

/-! ## Helper lemmas -/

/-- The printing phase succeeds exactly when `env.run` returned at least
two per-player trajectory lists, the first of which is non-empty and
whose first event carries both printed keys. -/
theorem printPhase_isOk_iff (t : List (List TrajEvent)) :
    (printPhase t).isOk = true ↔
      2 ≤ t.length ∧ t.getD 0 [] ≠ [] ∧
      (((t.getD 0 []).getD 0 []).lookup "raw_obs").isSome = true ∧
      (((t.getD 0 []).getD 0 []).lookup "raw_legal_actions").isSome = true := by
  rcases t with _ | ⟨t0, rest⟩
  · simp [printPhase, Except.isOk, Except.toBool]
  · rcases t0 with _ | ⟨e0, es⟩
    · simp [printPhase, Except.isOk, Except.toBool]
    · rcases h1 : e0.lookup "raw_obs" with _ | obs
      · simp [printPhase, Except.isOk, Except.toBool, h1]
      · rcases h2 : e0.lookup "raw_legal_actions" with _ | legal
        · simp [printPhase, Except.isOk, Except.toBool, h1, h2]
        · rcases rest with _ | ⟨t1, rest2⟩
          · simp [printPhase, Except.isOk, Except.toBool, h1, h2]
          · simp [printPhase, Except.isOk, Except.toBool, h1, h2]

/-- Under the spec's contract on the returned trajectories, the
printing phase succeeds. -/
theorem printPhase_isOk_of_contract (t : List (List TrajEvent))
    (h2 : 2 ≤ t.length) (hne : ∀ p ∈ t, p ≠ [])
    (hkeys : ∀ p ∈ t, ∀ e ∈ p,
      (e.lookup "raw_obs").isSome = true ∧
      (e.lookup "raw_legal_actions").isSome = true ∧
      (e.lookup "action").isSome = true) :
    (printPhase t).isOk = true := by
  rcases t with _ | ⟨p0, rest⟩
  · simp at h2
  · have hp0 : p0 ∈ p0 :: rest := List.mem_cons_self _ _
    have hp0ne : p0 ≠ [] := hne p0 hp0
    rcases p0 with _ | ⟨e0, es⟩
    · exact absurd rfl hp0ne
    · have he0 : e0 ∈ e0 :: es := List.mem_cons_self _ _
      have hk := hkeys _ hp0 e0 he0
      refine (printPhase_isOk_iff _).mpr ⟨h2, by simp, ?_, ?_⟩
      · simpa using hk.1
      · simpa using hk.2.1

/-! ## Claims -/

/-- C1: for a fixed environment name the driver's outcome — the trace,
the pair returned by the single `env.run` call, and everything printed
from it — is a deterministic function of the environment name alone:
it does not depend on the pre-existing process-wide RNG state, because
`set_seed 42` overwrites all global random-number sources before the
episode runs, and two invocations with the same argument vector agree
on every observable. -/
theorem run_independent_of_initial_rng (W : World) (rng0 rng1 : Nat)
    (a b : Args) (argv : List String) (h : a.env = b.env) :
    run W rng0 a = run W rng1 b ∧
    mainScript W rng0 argv = mainScript W rng1 argv := by
  constructor
  · cases a
    cases b
    cases h
    rfl
  · unfold mainScript
    cases parse_args argv with
    | error e => rfl
    | ok args => cases args; rfl

/-- Closed instance of `run_independent_of_initial_rng` at two distinct
initial RNG states. -/
theorem run_independent_of_initial_rng_witness :
    run demoWorld 0 { env := "uno" } = run demoWorld 99 { env := "uno" } ∧
    mainScript demoWorld 0 ["--env", "uno"] = mainScript demoWorld 99 ["--env", "uno"] :=
  run_independent_of_initial_rng demoWorld 0 99 { env := "uno" } { env := "uno" }
    ["--env", "uno"] rfl

/-- C2: for every environment name in the enumerated choices list, and
any external world satisfying the spec's contract on returned episodes,
the driver completes without raising — parsing succeeds, the printing
phase succeeds — and the trajectory list is non-empty for at least one
player. -/
theorem driver_succeeds_on_all_choices (W : World)
    (hW : ∀ name cfg, SpecEnvContract (W.make name cfg))
    (v : String) (hv : v ∈ envFlag.choices) (rng0 : Nat) :
    ∃ o, mainScript W rng0 ["--env", v] = Except.ok o ∧
      o.printed.isOk = true ∧ ∃ p ∈ o.trajectories, p ≠ [] := by
  refine ⟨run W rng0 { env := v }, ?_, ?_, ?_⟩
  · simp [mainScript, parse_args, parseArgsFrom, hv]
  · obtain ⟨h2, hne, hkeys⟩ :=
      hW v driverConfig (set_seed 42 rng0)
        [{ num_actions := (W.make v driverConfig).num_actions },
         { num_actions := (W.make v driverConfig).num_actions }] false
    exact printPhase_isOk_of_contract _ h2 hne hkeys
  · obtain ⟨h2, hne, _⟩ :=
      hW v driverConfig (set_seed 42 rng0)
        [{ num_actions := (W.make v driverConfig).num_actions },
         { num_actions := (W.make v driverConfig).num_actions }] false
    obtain ⟨p, hp⟩ := List.exists_mem_of_ne_nil _
      (List.ne_nil_of_length_pos (lt_of_lt_of_le (by norm_num) h2))
    exact ⟨p, hp, hne p hp⟩

/-- The concrete world `demoWorld` satisfies the spec contract. -/
theorem demoWorld_contract (name : String) (cfg : EnvConfig) :
    SpecEnvContract (demoWorld.make name cfg) := by
  intro rng agents training
  refine ⟨?_, ?_, ?_⟩
  · show 2 ≤ ([[demoEvent], [demoEvent]] : List (List TrajEvent)).length
    decide
  · show ∀ p ∈ ([[demoEvent], [demoEvent]] : List (List TrajEvent)), p ≠ []
    decide
  · show ∀ p ∈ ([[demoEvent], [demoEvent]] : List (List TrajEvent)), ∀ e ∈ p,
      (e.lookup "raw_obs").isSome = true ∧
      (e.lookup "raw_legal_actions").isSome = true ∧
      (e.lookup "action").isSome = true
    decide

/-- Closed instance of `driver_succeeds_on_all_choices` on a concrete
contract-satisfying world and the choice `uno`. -/
theorem driver_succeeds_on_all_choices_witness :
    ∃ o, mainScript demoWorld 0 ["--env", "uno"] = Except.ok o ∧
      o.printed.isOk = true ∧ ∃ p ∈ o.trajectories, p ≠ [] :=
  driver_succeeds_on_all_choices demoWorld demoWorld_contract "uno" (by decide) 0

/-- C3: the driver constructs exactly two `RandomAgent` instances, each
parameterized only by the action count reported by the constructed
environment, and registers exactly those two via `set_agents`, so the
number of players bound to the environment equals 2. -/
theorem driver_registers_two_random_agents (W : World) (rng0 : Nat) (args : Args) :
    (run W rng0 args).agents =
      [{ num_actions := (W.make args.env driverConfig).num_actions },
       { num_actions := (W.make args.env driverConfig).num_actions }] ∧
    (run W rng0 args).agents.length = 2 ∧
    Call.setAgents (run W rng0 args).agents ∈ (run W rng0 args).calls := by
  refine ⟨rfl, rfl, ?_⟩
  simp [run]

/-- C4: an invocation whose `--env` value is outside the enumerated
choices terminates during argument validation with an invalid-choice
error: `run` is never entered, so no external call — in particular no
`rlcard.make` — is performed. -/
theorem invalid_choice_rejected_before_make (W : World) (rng0 : Nat)
    (v : String) (hv : v ∉ envFlag.choices) :
    mainScript W rng0 ["--env", v] =
      Except.error (ParseError.invalidChoice "--env" v) ∧
    callsOf (mainScript W rng0 ["--env", v]) = [] := by
  have h : parse_args ["--env", v] =
      Except.error (ParseError.invalidChoice "--env" v) := by
    simp [parse_args, parseArgsFrom, hv]
  refine ⟨?_, ?_⟩
  · simp [mainScript, h]
  · simp [callsOf, mainScript, h]

/-- Closed instance of `invalid_choice_rejected_before_make` at the
unsupported name `poker`. -/
theorem invalid_choice_rejected_before_make_witness :
    mainScript demoWorld 0 ["--env", "poker"] =
      Except.error (ParseError.invalidChoice "--env" "poker") ∧
    callsOf (mainScript demoWorld 0 ["--env", "poker"]) = [] :=
  invalid_choice_rejected_before_make demoWorld 0 "poker" (by decide)

/-- C5: the factory is invoked exactly once, with the chosen name and
the one fixed configuration mapping holding exactly a seed of 42 and a
player count of 3, identically on every run. -/
theorem factory_called_with_fixed_config (W : World) (rng0 : Nat) (args : Args) :
    driverConfig = { seed := 42, num_players := 3 } ∧
    (run W rng0 args).calls.filter isMakeEnv =
      [Call.makeEnv args.env driverConfig] := by
  exact ⟨rfl, rfl⟩

/-- C6: the driver calls `env.run` exactly once, with
`is_training = false`; that call returns exactly the two outputs bound
to `trajectories` and `player_wins`, and it is the last external
operation of the trace — everything after it is printing. -/
theorem env_run_called_once_eval_mode (W : World) (rng0 : Nat) (args : Args) :
    (run W rng0 args).calls.filter isEnvRun = [Call.envRun false] ∧
    (run W rng0 args).calls.getLast? = some (Call.envRun false) ∧
    (run W rng0 args).trajectories =
      ((W.make args.env driverConfig).run (set_seed 42 rng0)
        (run W rng0 args).agents false).1 ∧
    (run W rng0 args).player_wins =
      ((W.make args.env driverConfig).run (set_seed 42 rng0)
        (run W rng0 args).agents false).2 := by
  refine ⟨rfl, ?_, rfl, rfl⟩
  simp [run]

/-- C7: the command-line surface is exactly one flag, `--env`, of
string type, with a closed set of nine game identifiers as choices and
default `leduc-holdem`. -/
theorem cli_surface_single_env_flag :
    parserArguments = [envFlag] ∧
    parserArguments.length = 1 ∧
    envFlag.flag = "--env" ∧
    envFlag.argType = "str" ∧
    envFlag.default = "leduc-holdem" ∧
    envFlag.choices = ["blackjack", "leduc-holdem", "limit-holdem", "doudizhu",
      "mahjong", "no-limit-holdem", "uno", "gin-rummy", "bridge"] ∧
    envFlag.choices.length = 9 :=
  ⟨rfl, rfl, rfl, rfl, rfl, rfl, rfl⟩

/-- C8: the printing phase completes without raising exactly when
`env.run` returned at least two per-player trajectory lists, the first
of which is non-empty and whose first event contains the keys
`raw_obs` and `raw_legal_actions`. -/
theorem print_phase_success_iff (t : List (List TrajEvent)) :
    (printPhase t).isOk = true ↔
      2 ≤ t.length ∧ t.getD 0 [] ≠ [] ∧
      (((t.getD 0 []).getD 0 []).lookup "raw_obs").isSome = true ∧
      (((t.getD 0 []).getD 0 []).lookup "raw_legal_actions").isSome = true :=
  printPhase_isOk_iff t

/-- Closed instance of `print_phase_success_iff`: on a concrete
well-formed pair of trajectories the printing phase succeeds. -/
theorem print_phase_success_iff_witness :
    (printPhase [[demoEvent], [demoEvent]]).isOk = true :=
  (print_phase_success_iff [[demoEvent], [demoEvent]]).mpr (by decide)

/-- C9: the seed stored in the factory configuration and the seed
passed to the global seeding utility are the same constant 42 on every
run. -/
theorem config_seed_equals_global_seed (W : World) (rng0 : Nat) (args : Args) :
    (run W rng0 args).calls.filter isSetSeed = [Call.setSeed driverConfig.seed] ∧
    driverConfig.seed = 42 :=
  ⟨rfl, rfl⟩

/-- C10: the configuration handed to the factory does not depend on the
chosen environment name — any two accepted names lead to factory calls
with identical configuration arguments — and the name itself is
forwarded verbatim from the parsed arguments. -/
theorem config_independent_of_env_name (W : World) (rng0 rng1 : Nat)
    (n1 n2 : String) :
    makeEnvArgs (run W rng0 { env := n1 }).calls = some (n1, driverConfig) ∧
    (makeEnvArgs (run W rng0 { env := n1 }).calls).map Prod.snd =
      (makeEnvArgs (run W rng1 { env := n2 }).calls).map Prod.snd :=
  ⟨rfl, rfl⟩
